import Mathlib

/-!
Shallow embedding of the browser-automation test runner
(`test.py` and `web_tester.py`).

Browser effects (Selenium WebDriver calls) are modelled by an
environment `Env` of pure oracles: each delegated primitive returns
`Except Exc _`, where an `error` value models the Python call raising
an exception.  Wall-clock readings (`time.time()`, `datetime.now()`)
are passed in as parameters.  String renderings of Python dict reprs
in log messages (`f"Action failed: {action}"`) are abstracted by
`showAction` / `showExpect`; no property below depends on their exact
text beyond being non-empty prefixed strings.
-/

set_option autoImplicit false

namespace AutoSuite

/-- Exceptions that Selenium calls may raise; `noSuchElement` is the
one caught specially by the element_not_visible branch of `verify_result`. -/
inductive Exc where
  | noSuchElement
  | timeout
  | other (msg : String)
  deriving DecidableEq, Repr

/-- The Python rendering str(e) of an exception, used for `error_message`. -/
def excMsg : Exc → String
  | .noSuchElement => "NoSuchElementException"
  | .timeout => "TimeoutException"
  | .other m => m

/-- Substring containment, the Python test `needle in hay`. -/
def strContains (hay needle : String) : Bool :=
  (List.range (hay.length + 1)).any fun i => needle.isPrefixOf (hay.drop i)

/-- One delegated call to the WebDriver library (or `time.sleep`),
recorded so that theorems can talk about which browser operations an
action or verification performed. -/
inductive Call where
  | waitPresence (s : String)
  | elemClear (s : String)
  | sendKeys (s v : String)
  | waitClickable (s : String)
  | clickElem (s : String)
  | sleep (t : Nat)
  | findElement (s : String)
  | isDisplayed (s : String)
  | waitVisibility (s : String)
  | currentUrl
  | title
  | getText (s : String)
  deriving DecidableEq, Repr

/-- The browser/driver oracle: one field per delegated Selenium
primitive used by `test.py`.  An `error` result models the call
raising. -/
structure Env where
  navigate : String → Except Exc Unit
  waitPresence : String → Except Exc Unit
  elemClear : String → Except Exc Unit
  sendKeys : String → String → Except Exc Unit
  waitClickable : String → Except Exc Unit
  clickElem : String → Except Exc Unit
  findElement : String → Except Exc Unit
  isDisplayed : String → Except Exc Bool
  waitVisibility : String → Except Exc Unit
  currentUrl : Except Exc String
  title : Except Exc String
  getText : String → Except Exc String
  screenshot : String → String

def isErr {α : Type} : Except Exc α → Bool
  | .error _ => true
  | .ok _ => false

/-- Whether the delegated call `c` raises under environment `env`. -/
def callRaised (env : Env) : Call → Bool
  | .waitPresence s => isErr (env.waitPresence s)
  | .elemClear s => isErr (env.elemClear s)
  | .sendKeys s v => isErr (env.sendKeys s v)
  | .waitClickable s => isErr (env.waitClickable s)
  | .clickElem s => isErr (env.clickElem s)
  | .sleep _ => false
  | .findElement s => isErr (env.findElement s)
  | .isDisplayed s => isErr (env.isDisplayed s)
  | .waitVisibility s => isErr (env.waitVisibility s)
  | .currentUrl => isErr env.currentUrl
  | .title => isErr env.title
  | .getText s => isErr (env.getText s)

/-- An action descriptor dict, e.g.
`{"action": "clear_field", "selector": "#name"}`.  The `time` field
carries the default of 1 applied by the dict lookup in the wait branch. -/
structure ActionDesc where
  action : String
  selector : String := ""
  value : String := ""
  time : Nat := 1
  deriving DecidableEq, Repr

/-- An expected-result descriptor dict, e.g.
`{"type": "element_visible", "selector": ".name-error"}`. -/
structure ExpectDesc where
  type : String
  selector : String := ""
  value : String := ""
  deriving DecidableEq, Repr

/-- The dataclass `TestCase` from `test.py`. -/
structure TestCase where
  name : String
  url : String
  actions : List ActionDesc
  expected_results : List ExpectDesc
  test_type : String := "functional"
  priority : String := "medium"
  tags : Option (List String) := none
  deriving DecidableEq, Repr

/-- The dataclass `TestResult` from `test.py`.  `execution_time` is a
rational number standing for the float duration. -/
structure TestResult where
  test_name : String
  status : String
  execution_time : Rat
  error_message : String := ""
  screenshot_path : String := ""
  timestamp : String := ""
  deriving DecidableEq, Repr

/-- A field entry of the form configuration
(`required_fields`, `validation_fields`, `all_fields`).  Optional dict
keys are `Option`s; `ftype` is the `"type"` key of validation fields. -/
structure FieldConfig where
  name : String
  selector : String
  error_selector : Option String := none
  ftype : String := ""
  valid_value : Option String := none
  deriving DecidableEq, Repr

/-- The `form_config` dict consumed by
`generate_form_validation_tests`. -/
structure FormConfig where
  url : String
  submit_button : String
  required_fields : List FieldConfig := []
  validation_fields : List FieldConfig := []
  all_fields : List FieldConfig := []
  success_url : Option String := none
  deriving DecidableEq, Repr

/-- The error selector of a field: its error_selector entry when present,
else the derived default selector built from the field name. -/
def errorSel (f : FieldConfig) : String :=
  f.error_selector.getD ("#" ++ f.name ++ "-error")

/-- One required-field validation test (the body of the first loop of
`generate_form_validation_tests`). -/
def requiredTest (cfg : FormConfig) (f : FieldConfig) : TestCase :=
  { name := "test_required_field_" ++ f.name
    url := cfg.url
    actions := [{ action := "clear_field", selector := f.selector },
                { action := "click", selector := cfg.submit_button }]
    expected_results := [{ type := "element_visible", selector := errorSel f }]
    test_type := "validation"
    tags := some ["form", "validation", "required"] }

/-- The data-type validation tests for one `validation_fields` entry
(second loop of `generate_form_validation_tests`): an email test, a
phone test, or nothing for other types. -/
def validationTests (cfg : FormConfig) (f : FieldConfig) : List TestCase :=
  if f.ftype = "email" then
    [{ name := "test_email_validation_" ++ f.name
       url := cfg.url
       actions := [{ action := "input", selector := f.selector, value := "invalid-email" },
                   { action := "click", selector := cfg.submit_button }]
       expected_results := [{ type := "element_visible", selector := errorSel f }]
       test_type := "validation"
       tags := some ["form", "validation", "email"] }]
  else if f.ftype = "phone" then
    [{ name := "test_phone_validation_" ++ f.name
       url := cfg.url
       actions := [{ action := "input", selector := f.selector, value := "123" },
                   { action := "click", selector := cfg.submit_button }]
       expected_results := [{ type := "element_visible", selector := errorSel f }]
       test_type := "validation"
       tags := some ["form", "validation", "phone"] }]
  else []

/-- The `valid_data` dict comprehension: maps a field name to the
`valid_value` (default value test) of the LAST `all_fields` entry with
that name (later dict entries override earlier ones). -/
def validData (cfg : FormConfig) (n : String) : String :=
  match (cfg.all_fields.filter (fun f => f.name = n)).getLast? with
  | some f => f.valid_value.getD "test"
  | none => ""

/-- The `test_successful_form_submission` case appended at the end of
`generate_form_validation_tests`. -/
def successTest (cfg : FormConfig) : TestCase :=
  { name := "test_successful_form_submission"
    url := cfg.url
    actions := (cfg.all_fields.map fun f =>
                  { action := "input", selector := f.selector,
                    value := validData cfg f.name }) ++
               [{ action := "click", selector := cfg.submit_button }]
    expected_results := [{ type := "url_contains",
                           value := cfg.success_url.getD "/success" }]
    test_type := "functional"
    tags := some ["form", "success"] }

/-- Embedding of `TestCaseGenerator.generate_form_validation_tests`. -/
def generate_form_validation_tests (cfg : FormConfig) : List TestCase :=
  (cfg.required_fields.map (requiredTest cfg)) ++
  ((cfg.validation_fields.map (validationTests cfg)).flatten) ++
  [successTest cfg]

/-- The try-block body of `TestExecutor.execute_action`: the
first component is the outcome (an `error` models an uncaught
exception reaching the `except` clause), the second the delegated
calls attempted, in order.  Branches mirror the Python
if/elif chain on the action key of the descriptor. -/
def executeActionBody (env : Env) (a : ActionDesc) :
    Except Exc Unit × List Call :=
  if a.action = "input" then
    match env.waitPresence a.selector with
    | .error e => (.error e, [.waitPresence a.selector])
    | .ok _ =>
      match env.elemClear a.selector with
      | .error e => (.error e, [.waitPresence a.selector, .elemClear a.selector])
      | .ok _ =>
        match env.sendKeys a.selector a.value with
        | .error e => (.error e,
            [.waitPresence a.selector, .elemClear a.selector,
             .sendKeys a.selector a.value])
        | .ok _ => (.ok (),
            [.waitPresence a.selector, .elemClear a.selector,
             .sendKeys a.selector a.value])
  else if a.action = "click" then
    match env.waitClickable a.selector with
    | .error e => (.error e, [.waitClickable a.selector])
    | .ok _ =>
      match env.clickElem a.selector with
      | .error e => (.error e, [.waitClickable a.selector, .clickElem a.selector])
      | .ok _ => (.ok (), [.waitClickable a.selector, .clickElem a.selector])
  else if a.action = "clear_field" then
    match env.findElement a.selector with
    | .error e => (.error e, [.findElement a.selector])
    | .ok _ =>
      match env.elemClear a.selector with
      | .error e => (.error e, [.findElement a.selector, .elemClear a.selector])
      | .ok _ => (.ok (), [.findElement a.selector, .elemClear a.selector])
  else if a.action = "wait" then
    (.ok (), [.sleep a.time])
  else
    (.ok (), [])

/-- Embedding of `TestExecutor.execute_action`: the try/except collapses any
exception to `False`. -/
def execute_action (env : Env) (a : ActionDesc) : Bool :=
  match (executeActionBody env a).1 with
  | .ok _ => true
  | .error _ => false

/-- The delegated calls `execute_action` attempts on `a`. -/
def actionCalls (env : Env) (a : ActionDesc) : List Call :=
  (executeActionBody env a).2

/-- The outer try-block body of `TestExecutor.verify_result`,
including the inner `try`/`except NoSuchElementException` of the
`element_not_visible` branch (which turns that exception, from either
delegated call, into `True`). -/
def verifyResultBody (env : Env) (e : ExpectDesc) :
    Except Exc Bool × List Call :=
  if e.type = "element_visible" then
    match env.waitVisibility e.selector with
    | .error ex => (.error ex, [.waitVisibility e.selector])
    | .ok _ => (.ok true, [.waitVisibility e.selector])
  else if e.type = "element_not_visible" then
    match env.findElement e.selector with
    | .error .noSuchElement => (.ok true, [.findElement e.selector])
    | .error ex => (.error ex, [.findElement e.selector])
    | .ok _ =>
      match env.isDisplayed e.selector with
      | .ok d => (.ok (!d), [.findElement e.selector, .isDisplayed e.selector])
      | .error .noSuchElement =>
          (.ok true, [.findElement e.selector, .isDisplayed e.selector])
      | .error ex => (.error ex, [.findElement e.selector, .isDisplayed e.selector])
  else if e.type = "url_contains" then
    match env.currentUrl with
    | .ok u => (.ok (strContains u e.value), [.currentUrl])
    | .error ex => (.error ex, [.currentUrl])
  else if e.type = "title_contains" then
    match env.title with
    | .ok t => (.ok (strContains t.toLower e.value.toLower), [.title])
    | .error ex => (.error ex, [.title])
  else if e.type = "text_contains" then
    match env.findElement e.selector with
    | .error ex => (.error ex, [.findElement e.selector])
    | .ok _ =>
      match env.getText e.selector with
      | .ok t => (.ok (strContains t e.value), [.findElement e.selector, .getText e.selector])
      | .error ex => (.error ex, [.findElement e.selector, .getText e.selector])
  else
    (.ok false, [])

/-- Embedding of `TestExecutor.verify_result`: the outer try/except collapses
any uncaught exception to `False`. -/
def verify_result (env : Env) (e : ExpectDesc) : Bool :=
  match (verifyResultBody env e).1 with
  | .ok b => b
  | .error _ => false

/-- The delegated calls `verify_result` attempts on `e`. -/
def verifyCalls (env : Env) (e : ExpectDesc) : List Call :=
  (verifyResultBody env e).2

/-- Rendering of an action descriptor inside
the Action-failed log message; abstracts the Python dict repr. -/
def showAction (a : ActionDesc) : String :=
  a.action ++ " " ++ a.selector ++ " " ++ a.value

/-- Rendering of an expectation descriptor inside
the Verification-failed log message; abstracts the Python dict repr. -/
def showExpect (e : ExpectDesc) : String :=
  e.type ++ " " ++ e.selector ++ " " ++ e.value

/-- The `for action in test_case.actions` loop of `execute_test`:
returns the first action whose `execute_action` is `False`, if any. -/
def runActions (env : Env) : List ActionDesc → Option ActionDesc
  | [] => none
  | a :: rest => if execute_action env a then runActions env rest else some a

/-- The actions the loop actually attempts: every action up to and
including the first failing one. -/
def attemptedActions (env : Env) : List ActionDesc → List ActionDesc
  | [] => []
  | a :: rest =>
      if execute_action env a then a :: attemptedActions env rest else [a]

/-- The `for expected in test_case.expected_results` loop of
`execute_test`: first expectation whose `verify_result` is `False`. -/
def runVerifications (env : Env) : List ExpectDesc → Option ExpectDesc
  | [] => none
  | e :: rest => if verify_result env e then runVerifications env rest else some e

/-- The `TestResult(...)` constructed at the top of `execute_test`
(before the `try` block runs). -/
def initResult (tc : TestCase) (ts : String) : TestResult :=
  { test_name := tc.name, status := "FAIL", execution_time := 0, timestamp := ts }

/-- The `try`/`except` part of `TestExecutor.execute_test` (everything
but the `finally` block).  Inside the `try`, only `self.driver.get`
can raise: `execute_action`, `verify_result` and `take_screenshot`
each catch their own exceptions, so the `except` clause is reached
exactly when navigation raises. -/
def executeTestBody (env : Env) (tc : TestCase) (ts : String) : TestResult :=
  match env.navigate tc.url with
  | .error ex =>
      { initResult tc ts with error_message := excMsg ex,
                              screenshot_path := env.screenshot tc.name }
  | .ok _ =>
    match runActions env tc.actions with
    | some a =>
        { initResult tc ts with
            error_message := "Action failed: " ++ showAction a,
            screenshot_path := env.screenshot tc.name }
    | none =>
      match runVerifications env tc.expected_results with
      | some e =>
          { initResult tc ts with
              error_message := "Verification failed: " ++ showExpect e,
              screenshot_path := env.screenshot tc.name }
      | none => { initResult tc ts with status := "PASS" }

/-- Embedding of `TestExecutor.execute_test`.  `ts` is the isoformat timestamp
and `dur` the elapsed `time.time() - start_time` that the `finally`
block writes into `execution_time` on every exit path (including the
early `return result` statements). -/
def execute_test (env : Env) (tc : TestCase) (ts : String) (dur : Rat) : TestResult :=
  { executeTestBody env tc ts with execution_time := dur }

/-- Embedding of `TestExecutor.execute_test_suite`: one sequential `execute_test`
per test case, results appended in order.  `clock n` supplies the
timestamp and duration observed for the `n`-th test of the run. -/
def execute_test_suite (env : Env) (clock : Nat → String × Rat) :
    List TestCase → List TestResult
  | [] => []
  | tc :: rest =>
      execute_test env tc (clock 0).1 (clock 0).2 ::
        execute_test_suite env (fun n => clock (n + 1)) rest

/-- The summary dict of `ReportGenerator.generate_summary_stats`
(`Option` models the early `return {}` for an empty list). -/
structure SummaryStats where
  total_tests : Nat
  passed_tests : Nat
  failed_tests : Nat
  total_execution_time : Rat
  average_execution_time : Rat
  pass_rate : Rat
  deriving DecidableEq, Repr

/-- Embedding of `ReportGenerator.generate_summary_stats`. -/
def generate_summary_stats (results : List TestResult) : Option SummaryStats :=
  if results.isEmpty then none
  else
    let total_time := (results.map (·.execution_time)).sum
    let avg := total_time / (results.length : Rat)
    some
      { total_tests := results.length
        passed_tests := (results.filter (fun r => r.status == "PASS")).length
        failed_tests := (results.filter (fun r => r.status == "FAIL")).length
        total_execution_time := total_time
        average_execution_time := avg
        pass_rate :=
          ((results.filter (fun r => r.status == "PASS")).length : Rat) /
            (results.length : Rat) * 100 }

/-! ### Web front end (`web_tester.py`) -/

/-- The flat file system the Flask app touches. -/
structure FS where
  files : List (String × String)
  deriving DecidableEq, Repr

/-- Writing a whole file: open for write followed by write. -/
def FS.write (fs : FS) (name content : String) : FS :=
  ⟨(name, content) :: fs.files.filter (fun p => p.1 ≠ name)⟩

/-- The existence check os.path.exists. -/
def FS.pathExists (fs : FS) (name : String) : Bool :=
  fs.files.any (fun p => p.1 = name)

/-- The URL rules registered on the Flask app: `@app.route("/report")`
and `@app.route("/", methods=["GET", "POST"])`. -/
def webRoutes : List String := ["/report", "/"]

/-- The POST branch of the `index` view: write the submitted URL to
`webtest_url.txt`, run `test.py --test-type <test_type>` once
(`runScript` models the effect of the subprocess on the file system), then
check once whether `test_report.html` exists and, if so, build the
cache-busting report link.  Returns the final file system and the
optional `report_link`. -/
def indexPost (runScript : String → FS → FS) (url testType : String)
    (t : Nat) (fs : FS) : FS × Option String :=
  let fs1 := fs.write "webtest_url.txt" url
  let fs2 := runScript testType fs1
  let link :=
    if fs2.pathExists "test_report.html" then
      some ("/report?t=" ++ toString t)
    else none
  (fs2, link)

/-! ### Concrete fixtures used by witnesses and counterexamples -/

/-- A driver where every delegated call succeeds. -/
def envAllOk : Env :=
  { navigate := fun _ => .ok ()
    waitPresence := fun _ => .ok ()
    elemClear := fun _ => .ok ()
    sendKeys := fun _ _ => .ok ()
    waitClickable := fun _ => .ok ()
    clickElem := fun _ => .ok ()
    findElement := fun _ => .ok ()
    isDisplayed := fun _ => .ok true
    waitVisibility := fun _ => .ok ()
    currentUrl := .ok "http://example.com/success"
    title := .ok "Example"
    getText := fun _ => .ok "hello"
    screenshot := fun n => "screenshots/" ++ n ++ ".png" }

/-- A driver where `find_element` raises a generic WebDriver error. -/
def envFindRaises : Env :=
  { envAllOk with findElement := fun _ => .error (.other "stale element") }

/-- A driver where `find_element` raises `NoSuchElementException`. -/
def envNoSuch : Env :=
  { envAllOk with findElement := fun _ => .error .noSuchElement }

/-- A test case whose single `clear_field` action fails under
`envFindRaises` (its `find_element` lookup raises). -/
def tcClearFail : TestCase :=
  { name := "tc1"
    url := "http://example.com"
    actions := [{ action := "clear_field", selector := "#x" }]
    expected_results := [] }

/-- An `element_not_visible` expectation on the selector that
`envNoSuch` fails to find. -/
def expectNotVisible : ExpectDesc :=
  { type := "element_not_visible", selector := "#x" }

/-- A concrete clock stream for suite runs. -/
def clock0 : Nat → String × Rat := fun _ => ("2025-01-01T00:00:00", 1)

def resPass : TestResult :=
  { test_name := "t_pass", status := "PASS", execution_time := 2 }

def resFail : TestResult :=
  { test_name := "t_fail", status := "FAIL", execution_time := 4 }

/-- A form field with an explicit error selector. -/
def fieldName : FieldConfig :=
  { name := "name", selector := "#name", error_selector := some ".name-error" }

/-- A form configuration with exactly one required field and no
validation fields. -/
def cfgOneRequired : FormConfig :=
  { url := "http://example.com"
    submit_button := "#submit"
    required_fields := [fieldName] }

/-- The empty file system. -/
def fsEmpty : FS := ⟨[]⟩

/-- A script effect that creates the HTML report. -/
def runScriptReport : String → FS → FS :=
  fun _ fs => fs.write "test_report.html" "<html>"

/-! ## Theorems -/

/-- Frame facts about one test execution: the result keeps the name of
the test case and the supplied timestamp, and its status is either
PASS or FAIL. -/
theorem executeTestBody_fields (env : Env) (tc : TestCase) (ts : String) :
    (executeTestBody env tc ts).test_name = tc.name ∧
    (executeTestBody env tc ts).timestamp = ts ∧
    ((executeTestBody env tc ts).status = "PASS" ∨
      (executeTestBody env tc ts).status = "FAIL") := by
  unfold executeTestBody
  cases env.navigate tc.url with
  | error ex => exact ⟨rfl, rfl, Or.inr rfl⟩
  | ok u =>
    cases runActions env tc.actions with
    | none =>
      cases runVerifications env tc.expected_results with
      | none => exact ⟨rfl, rfl, Or.inl rfl⟩
      | some e => exact ⟨rfl, rfl, Or.inr rfl⟩
    | some a => exact ⟨rfl, rfl, Or.inr rfl⟩

/-- The suite produces as many results as it is given test cases. -/
theorem execute_test_suite_length (env : Env) (clock : Nat → String × Rat)
    (tcs : List TestCase) :
    (execute_test_suite env clock tcs).length = tcs.length := by
  induction tcs generalizing clock with
  | nil => rfl
  | cons tc rest ih => simp [execute_test_suite, ih]

/-- C1: a form configuration with exactly one required field and no
validation fields yields exactly one test case tagged "required": it
is named test_required_field_ followed by the field name, its actions
are a clear_field on the field selector then a click on the submit
button, and its single expectation is element_visible on the error
selector. -/
theorem C1_one_required_tagged_test (cfg : FormConfig) (f : FieldConfig)
    (h1 : cfg.required_fields = [f]) (h2 : cfg.validation_fields = []) :
    (generate_form_validation_tests cfg).filter
        (fun t => (t.tags.getD []).contains "required") =
      [{ name := "test_required_field_" ++ f.name
         url := cfg.url
         actions := [{ action := "clear_field", selector := f.selector },
                     { action := "click", selector := cfg.submit_button }]
         expected_results := [{ type := "element_visible", selector := errorSel f }]
         test_type := "validation"
         tags := some ["form", "validation", "required"] }] := by
  simp [generate_form_validation_tests, h1, h2, requiredTest, successTest,
    List.filter]

/-- Witness for C1 on a concrete one-required-field configuration. -/
theorem C1_witness :
    (generate_form_validation_tests cfgOneRequired).filter
        (fun t => (t.tags.getD []).contains "required") =
      [{ name := "test_required_field_" ++ fieldName.name
         url := cfgOneRequired.url
         actions := [{ action := "clear_field", selector := fieldName.selector },
                     { action := "click", selector := cfgOneRequired.submit_button }]
         expected_results := [{ type := "element_visible", selector := errorSel fieldName }]
         test_type := "validation"
         tags := some ["form", "validation", "required"] }] :=
  C1_one_required_tagged_test cfgOneRequired fieldName rfl rfl

/-- C2: the suite returns exactly one result per test case, in input
order, and the i-th result carries the name of the i-th test case. -/
theorem C2_one_result_per_case_in_order (env : Env)
    (clock : Nat → String × Rat) (tcs : List TestCase) :
    (execute_test_suite env clock tcs).length = tcs.length ∧
    ∀ i : Nat,
      ((execute_test_suite env clock tcs)[i]?).map TestResult.test_name =
        (tcs[i]?).map TestCase.name := by
  refine ⟨execute_test_suite_length env clock tcs, ?_⟩
  intro i
  induction tcs generalizing clock i with
  | nil => simp [execute_test_suite]
  | cons tc rest ih =>
    cases i with
    | zero =>
      have hn : (execute_test env tc (clock 0).1 (clock 0).2).test_name = tc.name :=
        (executeTestBody_fields env tc (clock 0).1).1
      simp [execute_test_suite, hn]
    | succ n =>
      simpa [execute_test_suite] using ih (fun m => clock (m + 1)) n

/-- C3 counterexample: the web front end does not expose a single
route; it registers two URL rules. -/
theorem C3_counterexample : ¬ (webRoutes.length = 1) := by decide

/-- C3 amended: the web front end exposes two routes; a POST writes
the submitted URL to webtest_url.txt, invokes the test script once on
the resulting file system, and renders the report link exactly when
test_report.html exists after that single invocation. -/
theorem C3_two_routes_single_check (runScript : String → FS → FS)
    (url testType : String) (t : Nat) (fs : FS) :
    webRoutes.length = 2 ∧
    (indexPost runScript url testType t fs).1 =
      runScript testType (fs.write "webtest_url.txt" url) ∧
    (indexPost runScript url testType t fs).2 =
      (if (runScript testType (fs.write "webtest_url.txt" url)).pathExists
            "test_report.html"
       then some ("/report?t=" ++ toString t)
       else none) :=
  ⟨rfl, rfl, rfl⟩

/-- C4 counterexample: a failing action makes execute_test overwrite
the error_message field, so fields other than status and
execution_time do change between creation and return. -/
theorem C4_counterexample :
    ¬ ((execute_test envFindRaises tcClearFail "ts" 1).error_message =
         (initResult tcClearFail "ts").error_message ∧
       (execute_test envFindRaises tcClearFail "ts" 1).screenshot_path =
         (initResult tcClearFail "ts").screenshot_path) := by
  decide

/-- C4 amended: between creation and return from execute_test only the
status, execution_time, error_message and screenshot_path fields of
the result can change; its test_name and timestamp are exactly those
of the freshly created record. -/
theorem C4_only_result_fields_updated (env : Env) (tc : TestCase)
    (ts : String) (dur : Rat) :
    (execute_test env tc ts dur).test_name = (initResult tc ts).test_name ∧
    (execute_test env tc ts dur).timestamp = (initResult tc ts).timestamp ∧
    (execute_test env tc ts dur).execution_time = dur := by
  obtain ⟨h1, h2, -⟩ := executeTestBody_fields env tc ts
  exact ⟨h1, h2, rfl⟩

/-- If the first failing action of the list sits at index i, the run
attempts exactly the actions up to and including index i (each once)
and the loop reports that action as the failure. -/
theorem runActions_first_fail (env : Env) (l : List ActionDesc) (i : Nat)
    (a : ActionDesc) (ha : l[i]? = some a)
    (hfail : execute_action env a = false)
    (hbefore : ∀ j b, j < i → l[j]? = some b → execute_action env b = true) :
    runActions env l = some a ∧
    attemptedActions env l = l.take (i + 1) := by
  induction l generalizing i with
  | nil => simp at ha
  | cons x xs ih =>
    cases i with
    | zero =>
      simp at ha
      subst ha
      simp [runActions, attemptedActions, hfail]
    | succ n =>
      have hx : execute_action env x = true :=
        hbefore 0 x (Nat.succ_pos n) (by simp)
      simp at ha
      obtain ⟨h1, h2⟩ := ih n ha
        (fun j b hj hb => hbefore (j + 1) b (Nat.succ_lt_succ hj) (by simpa using hb))
      simp [runActions, attemptedActions, hx, h1, h2]

/-- C5: actions are attempted at most once each, with no retry: when
navigation succeeds and the first failing action sits at index i, the
attempted actions are exactly the prefix up to and including index i,
the attempted list is a prefix of the action list, and the test ends
with status FAIL. -/
theorem C5_first_failure_ends_test (env : Env) (tc : TestCase)
    (ts : String) (dur : Rat) (i : Nat) (a : ActionDesc)
    (hnav : env.navigate tc.url = Except.ok ())
    (ha : tc.actions[i]? = some a)
    (hfail : execute_action env a = false)
    (hbefore : ∀ j b, j < i → tc.actions[j]? = some b →
      execute_action env b = true) :
    attemptedActions env tc.actions = tc.actions.take (i + 1) ∧
    (∃ n, attemptedActions env tc.actions = tc.actions.take n) ∧
    (execute_test env tc ts dur).status = "FAIL" := by
  obtain ⟨h1, h2⟩ := runActions_first_fail env tc.actions i a ha hfail hbefore
  refine ⟨h2, ⟨i + 1, h2⟩, ?_⟩
  show (executeTestBody env tc ts).status = "FAIL"
  simp [executeTestBody, hnav, h1, initResult]

/-- Witness for C5: a concrete run whose single clear_field action
fails at index 0. -/
theorem C5_witness :
    attemptedActions envFindRaises tcClearFail.actions =
      tcClearFail.actions.take 1 ∧
    (∃ n, attemptedActions envFindRaises tcClearFail.actions =
      tcClearFail.actions.take n) ∧
    (execute_test envFindRaises tcClearFail "ts" 1).status = "FAIL" :=
  C5_first_failure_ends_test envFindRaises tcClearFail "ts" 1 0
    { action := "clear_field", selector := "#x" } rfl rfl (by decide)
    (fun j _ hj _ => absurd hj (Nat.not_lt_zero j))

/-- C7: every result produced by execute_test has a status in the set
PASS, FAIL, SKIP, and the freshly created result starts at FAIL. -/
theorem C7_status_within_set (env : Env) (tc : TestCase) (ts : String)
    (dur : Rat) :
    ((execute_test env tc ts dur).status = "PASS" ∨
     (execute_test env tc ts dur).status = "FAIL" ∨
     (execute_test env tc ts dur).status = "SKIP") ∧
    (initResult tc ts).status = "FAIL" := by
  obtain ⟨-, -, h⟩ := executeTestBody_fields env tc ts
  exact ⟨h.imp id Or.inl, rfl⟩

/-- C9: the SKIP status is unreachable: execute_test always returns
PASS or FAIL. -/
theorem C9_skip_unreachable (env : Env) (tc : TestCase) (ts : String)
    (dur : Rat) :
    (execute_test env tc ts dur).status ≠ "SKIP" ∧
    ((execute_test env tc ts dur).status = "PASS" ∨
     (execute_test env tc ts dur).status = "FAIL") := by
  obtain ⟨-, -, h⟩ := executeTestBody_fields env tc ts
  constructor
  · intro hs
    have hs2 : (executeTestBody env tc ts).status = "SKIP" := hs
    rcases h with h | h <;> rw [h] at hs2 <;> exact absurd hs2 (by decide)
  · exact h

/-- C6 counterexample: under a driver whose element lookup raises
NoSuchElementException, the element_not_visible verification performs
a delegated call that raises and still returns True, not False. -/
theorem C6_counterexample :
    (Call.findElement "#x") ∈ verifyCalls envNoSuch expectNotVisible ∧
    callRaised envNoSuch (Call.findElement "#x") = true ∧
    verify_result envNoSuch expectNotVisible = true := by
  decide

/-- C6 amended: execute_action returns False whenever one of its
delegated calls raises; verify_result does too for every expectation
type other than element_not_visible, whose inner handler instead turns
a NoSuchElementException from the element lookup into True. -/
theorem C6_exceptions_collapse_to_false (env : Env) (a : ActionDesc)
    (e : ExpectDesc) :
    ((∃ c ∈ actionCalls env a, callRaised env c = true) →
      execute_action env a = false) ∧
    (e.type ≠ "element_not_visible" →
      (∃ c ∈ verifyCalls env e, callRaised env c = true) →
      verify_result env e = false) ∧
    (e.type = "element_not_visible" →
      env.findElement e.selector = Except.error Exc.noSuchElement →
      verify_result env e = true) := by
  refine ⟨?_, ?_, ?_⟩
  · rintro ⟨c, hc, hr⟩
    by_cases h1 : a.action = "input"
    · rcases hw : env.waitPresence a.selector with ex | u
      · simp [execute_action, executeActionBody, h1, hw]
      · rcases hcl : env.elemClear a.selector with ex | u2
        · simp [execute_action, executeActionBody, h1, hw, hcl]
        · rcases hs : env.sendKeys a.selector a.value with ex | u3
          · simp [execute_action, executeActionBody, h1, hw, hcl, hs]
          · exfalso
            simp [actionCalls, executeActionBody, h1, hw, hcl, hs] at hc
            rcases hc with rfl | rfl | rfl <;>
              simp [callRaised, isErr, hw, hcl, hs] at hr
    · by_cases h2 : a.action = "click"
      · rcases hw : env.waitClickable a.selector with ex | u
        · simp [execute_action, executeActionBody, h1, h2, hw]
        · rcases hck : env.clickElem a.selector with ex | u2
          · simp [execute_action, executeActionBody, h1, h2, hw, hck]
          · exfalso
            simp [actionCalls, executeActionBody, h1, h2, hw, hck] at hc
            rcases hc with rfl | rfl <;>
              simp [callRaised, isErr, hw, hck] at hr
      · by_cases h3 : a.action = "clear_field"
        · rcases hf : env.findElement a.selector with ex | u
          · simp [execute_action, executeActionBody, h1, h2, h3, hf]
          · rcases hcl : env.elemClear a.selector with ex | u2
            · simp [execute_action, executeActionBody, h1, h2, h3, hf, hcl]
            · exfalso
              simp [actionCalls, executeActionBody, h1, h2, h3, hf, hcl] at hc
              rcases hc with rfl | rfl <;>
                simp [callRaised, isErr, hf, hcl] at hr
        · by_cases h4 : a.action = "wait"
          · exfalso
            simp [actionCalls, executeActionBody, h1, h2, h3, h4] at hc
            subst hc
            simp [callRaised] at hr
          · exfalso
            simp [actionCalls, executeActionBody, h1, h2, h3, h4] at hc
  · intro hne
    rintro ⟨c, hc, hr⟩
    by_cases g1 : e.type = "element_visible"
    · rcases hv : env.waitVisibility e.selector with ex | u
      · simp [verify_result, verifyResultBody, g1, hv]
      · exfalso
        simp [verifyCalls, verifyResultBody, g1, hv] at hc
        subst hc
        simp [callRaised, isErr, hv] at hr
    · by_cases g3 : e.type = "url_contains"
      · rcases hu : env.currentUrl with ex | u
        · simp [verify_result, verifyResultBody, g1, hne, g3, hu]
        · exfalso
          simp [verifyCalls, verifyResultBody, g1, hne, g3, hu] at hc
          subst hc
          simp [callRaised, isErr, hu] at hr
      · by_cases g4 : e.type = "title_contains"
        · rcases ht : env.title with ex | u
          · simp [verify_result, verifyResultBody, g1, hne, g3, g4, ht]
          · exfalso
            simp [verifyCalls, verifyResultBody, g1, hne, g3, g4, ht] at hc
            subst hc
            simp [callRaised, isErr, ht] at hr
        · by_cases g5 : e.type = "text_contains"
          · rcases hf : env.findElement e.selector with ex | u
            · simp [verify_result, verifyResultBody, g1, hne, g3, g4, g5, hf]
            · rcases hg : env.getText e.selector with ex | u2
              · simp [verify_result, verifyResultBody, g1, hne, g3, g4, g5, hf, hg]
              · exfalso
                simp [verifyCalls, verifyResultBody, g1, hne, g3, g4, g5, hf, hg] at hc
                rcases hc with rfl | rfl <;>
                  simp [callRaised, isErr, hf, hg] at hr
          · exfalso
            simp [verifyCalls, verifyResultBody, g1, hne, g3, g4, g5] at hc
  · intro he hfind
    simp [verify_result, verifyResultBody, he, hfind]

/-- Witness for C6 amended: a raising clear_field action yields False,
and a NoSuchElementException during element_not_visible yields True. -/
theorem C6_witness :
    execute_action envFindRaises { action := "clear_field", selector := "#x" } = false ∧
    verify_result envNoSuch expectNotVisible = true := by
  constructor
  · exact (C6_exceptions_collapse_to_false envFindRaises
        { action := "clear_field", selector := "#x" } expectNotVisible).1
      ⟨Call.findElement "#x", by decide, by decide⟩
  · exact (C6_exceptions_collapse_to_false envNoSuch
        { action := "wait" } expectNotVisible).2.2 rfl rfl

/-- C8: an action descriptor whose action value lies outside the fixed
set input, click, clear_field, wait performs no delegated call and
reports success. -/
theorem C8_unknown_action_is_noop (env : Env) (a : ActionDesc)
    (h : a.action ∉ (["input", "click", "clear_field", "wait"] : List String)) :
    execute_action env a = true ∧ actionCalls env a = [] := by
  simp only [List.mem_cons, List.not_mem_nil, or_false, not_or] at h
  obtain ⟨h1, h2, h3, h4⟩ := h
  simp [execute_action, executeActionBody, actionCalls, h1, h2, h3, h4]

/-- Witness for C8: a hover action is outside the fixed set. -/
theorem C8_witness :
    execute_action envAllOk { action := "hover" } = true ∧
    actionCalls envAllOk { action := "hover" } = [] :=
  C8_unknown_action_is_noop envAllOk { action := "hover" } (by decide)

/-- C10: summary statistics are empty for an empty result list; for a
non-empty list, total_tests is the length, passed_tests and
failed_tests count the PASS and FAIL results, and pass_rate is 100
times passed_tests divided by total_tests. -/
theorem C10_summary_stats_counts (results : List TestResult) :
    generate_summary_stats [] = none ∧
    (results ≠ [] →
      ∃ s, generate_summary_stats results = some s ∧
        s.total_tests = results.length ∧
        s.passed_tests = (results.filter (fun r => r.status == "PASS")).length ∧
        s.failed_tests = (results.filter (fun r => r.status == "FAIL")).length ∧
        s.pass_rate =
          100 * ((results.filter (fun r => r.status == "PASS")).length : Rat) /
            (results.length : Rat)) := by
  refine ⟨rfl, fun h => ?_⟩
  rcases results with - | ⟨r, rs⟩
  · exact absurd rfl h
  · refine ⟨_, rfl, rfl, rfl, rfl, ?_⟩
    have hp : ∀ p t : Rat, p / t * 100 = 100 * p / t := fun p t => by ring
    exact hp _ _

/-- Witness for C10 on a concrete two-element result list. -/
theorem C10_witness :
    ∃ s, generate_summary_stats [resPass, resFail] = some s ∧
      s.total_tests = ([resPass, resFail] : List TestResult).length ∧
      s.passed_tests =
        (([resPass, resFail] : List TestResult).filter
          (fun r => r.status == "PASS")).length ∧
      s.failed_tests =
        (([resPass, resFail] : List TestResult).filter
          (fun r => r.status == "FAIL")).length ∧
      s.pass_rate =
        100 * ((([resPass, resFail] : List TestResult).filter
          (fun r => r.status == "PASS")).length : Rat) /
          (([resPass, resFail] : List TestResult).length : Rat) :=
  (C10_summary_stats_counts [resPass, resFail]).2 (by decide)

end AutoSuite
